import Mathlib

/-!
Verification of the MicroPython PSoC6 examples repository.

The repository is a set of standalone MicroPython example scripts for the
PSoC6 boards.  The scripts call into the `machine` module (Pin, Signal, ADC,
PWM, I2C, SPI, UART, Timer) of the MicroPython firmware, which is not part of
the repository; where a claim is decided by the behaviour of that module, the
behaviour is modelled from the specification document and the definition says
so in its doc comment.  Everything else (the arithmetic the scripts perform,
the loop bounds, the structure of the try/except blocks) is translated
directly from the Python sources.
-/

namespace PSoC6

/-! ### Timer model (11_timer_interrupt.py, spec section 4.3)

The `machine.Timer` implementation is not part of this repository; the
examples only arm timers (`init`), let time pass (`time.sleep`), and stop
them (`deinit`).  The firing behaviour is modelled from the spec: firing
occurs "at or after the period has elapsed since arming (or since the last
periodic firing)". -/

/-- Timer firing mode, as in `Timer.ONE_SHOT` / `Timer.PERIODIC`
(11_timer_interrupt.py lines 50, 74). -/
inductive TimerMode where
  | ONE_SHOT : TimerMode
  | PERIODIC : TimerMode
deriving DecidableEq

/-- Modelled from the spec: counting process of a PERIODIC timer.  A PERIODIC
timer armed at time 0 with period `T` milliseconds fires at times
`T, 2*T, 3*T, …`; `periodicTicks T d` counts the firings that occur at a time
`t` with `1 ≤ t ≤ d`, i.e. the multiples of `T` in `[1, d]`. -/
def periodicTicks (T : Nat) : Nat → Nat
  | 0 => 0
  | d + 1 => periodicTicks T d + (if T ∣ (d + 1) then 1 else 0)

/-- Firings observed over a run of duration `D` milliseconds when a firing
exactly at time `D` is excluded (the boundary policy the claim states). -/
def periodicFiresExcl (T D : Nat) : Nat := periodicTicks T (D - 1)

/-- Firings observed over a run of duration `D` milliseconds when a firing
exactly at time `D` is included. -/
def periodicFiresIncl (T D : Nat) : Nat := periodicTicks T D

/-- The number of multiples of `T` in `[1, d]` is `⌊d / T⌋` (also for the
degenerate `T = 0`, where both sides are 0). -/
theorem periodicTicks_eq_div (T : Nat) : ∀ d, periodicTicks T d = d / T := by
  intro d
  induction d with
  | zero => simp [periodicTicks]
  | succ n ih => rw [periodicTicks, ih, Nat.succ_div]

/-- C1 (counterexample): under the boundary policy the claim itself states —
a firing exactly at time `D` is excluded — the PERIODIC timer with period
200 ms run for 5000 ms fires 24 times, not `⌊5000/200⌋ = 25`: the firing
that would land exactly at 5000 ms is the 25th. -/
theorem C1_boundary_counterexample :
    periodicFiresExcl 200 5000 = 24 ∧ ¬ periodicFiresExcl 200 5000 = 5000 / 200 := by
  have h : periodicFiresExcl 200 5000 = 24 := by
    show periodicTicks 200 4999 = 24
    rw [periodicTicks_eq_div]
  exact ⟨h, by rw [h]; decide⟩

/-- C1 (amended): a PERIODIC timer armed with period `T` and run for duration
`D` fires `⌊D/T⌋` times when the firing exactly at time `D` is included
(with it excluded the count is `⌊(D-1)/T⌋`); in particular the two PERIODIC
timers of 11_timer_interrupt.py example 3, with periods 200 ms and 1000 ms,
both run for 5000 ms, fire 25 and 5 times respectively. -/
theorem C1_periodic_fire_count (T D : Nat) :
    periodicFiresIncl T D = D / T ∧
    periodicFiresExcl T D = (D - 1) / T ∧
    periodicFiresIncl 200 5000 = 25 ∧
    periodicFiresIncl 1000 5000 = 5 := by
  refine ⟨periodicTicks_eq_div T D, periodicTicks_eq_div T (D - 1), ?_, ?_⟩
  · rw [periodicFiresIncl, periodicTicks_eq_div]
  · rw [periodicFiresIncl, periodicTicks_eq_div]

/-- Per-timer state, modelled from the spec's state machine
`Stopped → Armed (on init) → (Firing)* → Stopped (on deinit or after a
ONE_SHOT fires)`.  `Armed mode period r` carries the remaining milliseconds
`r` until the next firing. -/
inductive TimerState where
  | Stopped : TimerState
  | Armed : TimerMode → Nat → Nat → TimerState
deriving DecidableEq

/-- Events a timer observes: `timer.init(period=p, mode=m, callback=cb)`,
`timer.deinit()`, and the passage of one millisecond of time. -/
inductive TimerCmd where
  | init : TimerMode → Nat → TimerCmd
  | deinit : TimerCmd
  | tick : TimerCmd
deriving DecidableEq

/-- Modelled from the spec: one step of the per-timer state machine (the
`machine.Timer` implementation is not in this repository).  `init` arms the
timer from any state, `deinit` stops it from any state, and `tick` advances
time by one millisecond; when the countdown of an armed timer elapses the
callback fires — a ONE_SHOT timer then stops, a PERIODIC timer re-arms with
its full period.  Returns the successor state and whether the callback fired
during this step. -/
def timerStep : TimerState → TimerCmd → TimerState × Bool
  | _, .init m p => (.Armed m p p, false)
  | _, .deinit => (.Stopped, false)
  | .Stopped, .tick => (.Stopped, false)
  | .Armed m p r, .tick =>
      match r with
      | 0 => (.Armed m p 0, false)
      | 1 =>
          match m with
          | .ONE_SHOT => (.Stopped, true)
          | .PERIODIC => (.Armed m p p, true)
      | rr + 2 => (.Armed m p (rr + 1), false)

/-- Run a timer through a list of events, returning the final state and the
total number of callback invocations. -/
def timerRun : TimerState → List TimerCmd → TimerState × Nat
  | s, [] => (s, 0)
  | s, c :: cs =>
      let out := timerStep s c
      let rest := timerRun out.1 cs
      (rest.1, (if out.2 then 1 else 0) + rest.2)

/-- `n` milliseconds of elapsing time with no further API calls. -/
def ticks (n : Nat) : List TimerCmd := List.replicate n .tick

/-- A stopped timer stays stopped and never fires, however long it ticks. -/
theorem timerRun_stopped_ticks : ∀ n, timerRun .Stopped (ticks n) = (.Stopped, 0) := by
  intro n
  induction n with
  | zero => rfl
  | succ k ih =>
      rw [ticks, List.replicate_succ]
      rw [ticks] at ih
      simp [timerRun, timerStep, ih]

/-- A ONE_SHOT timer armed with `0 < r ≤ n` milliseconds remaining fires
exactly once during `n` milliseconds and ends stopped. -/
theorem timerRun_oneShot :
    ∀ n r p, 0 < r → r ≤ n →
      timerRun (.Armed .ONE_SHOT p r) (ticks n) = (.Stopped, 1) := by
  intro n
  induction n with
  | zero => intro r p hr hn; omega
  | succ k ih =>
      intro r p hr hn
      rw [ticks, List.replicate_succ]
      match r, hr with
      | 1, _ =>
          have hs := timerRun_stopped_ticks k
          rw [ticks] at hs
          simp [timerRun, timerStep, hs]
      | rr + 2, _ =>
          have := ih (rr + 1) p (by omega) (by omega)
          rw [ticks] at this
          simp [timerRun, timerStep, this]

/-! ### Pin interrupt model (11_timer_interrupt.py examples 4 and 5)

`Pin.irq` is part of the MicroPython firmware, not of this repository; it is
modelled from the spec: `Disabled → Enabled(edge-mask)`, firing its handler
once per qualifying transition, and `pin.irq(handler=None)` disables it. -/

/-- Events a pin interrupt observes: installing a handler
(`pin.irq(trigger=…, handler=cb)`), removing it (`pin.irq(handler=None)`),
and a qualifying edge on the pin. -/
inductive IrqEvent where
  | installHandler : IrqEvent
  | removeHandler : IrqEvent
  | edge : IrqEvent
deriving DecidableEq

/-- Modelled from the spec: one step of the pin-interrupt state machine.  The
state is whether a handler is enabled; a qualifying edge invokes the handler
exactly when one is enabled.  Returns the successor state and whether the
handler was invoked. -/
def irqStep : Bool → IrqEvent → Bool × Bool
  | _, .installHandler => (true, false)
  | _, .removeHandler => (false, false)
  | en, .edge => (en, en)

/-- Run a pin interrupt through a list of events, returning the final state
and the number of handler invocations. -/
def irqRun : Bool → List IrqEvent → Bool × Nat
  | en, [] => (en, 0)
  | en, e :: es =>
      let out := irqStep en e
      let rest := irqRun out.1 es
      (rest.1, (if out.2 then 1 else 0) + rest.2)

/-- Event lists that contain no reinstallation of a handler. -/
def noReinstall (es : List IrqEvent) : Prop := ∀ e ∈ es, e ≠ IrqEvent.installHandler

instance (es : List IrqEvent) : Decidable (noReinstall es) := by
  unfold noReinstall
  infer_instance

/-- A disabled interrupt invokes no handler as long as none is reinstalled. -/
theorem irqRun_disabled : ∀ es, noReinstall es → (irqRun false es).2 = 0 := by
  intro es
  induction es with
  | nil => intro _; rfl
  | cons e tl ih =>
      intro h
      have htl : noReinstall tl := fun x hx => h x (List.mem_cons_of_mem e hx)
      have hni : e ≠ IrqEvent.installHandler := h e (List.mem_cons_self e tl)
      cases e with
      | installHandler => exact absurd rfl hni
      | removeHandler => simp [irqRun, irqStep, ih htl]
      | edge => simp [irqRun, irqStep, ih htl]

/-- C2: (1) after `deinit()` a timer never invokes its callback again,
however long time runs on; (2) a ONE_SHOT timer armed with positive period
`p` and given at least `p` milliseconds fires exactly once and ends Stopped —
hence in particular it never fires after its own deinitialization, by (1);
(3) `init` moves any state to Armed and (4) `deinit` moves any state to
Stopped, the spec's `Stopped → Armed → (Firing)* → Stopped` machine; and
(5) after `irq(handler=None)` the interrupt handler is never invoked again
unless a handler is installed anew. -/
theorem C2_deinit_and_oneShot :
    (∀ (s : TimerState) (n : Nat),
        timerRun (timerStep s .deinit).1 (ticks n) = (TimerState.Stopped, 0)) ∧
    (∀ p n, 0 < p → p ≤ n →
        timerRun (timerStep .Stopped (.init .ONE_SHOT p)).1 (ticks n) =
          (TimerState.Stopped, 1)) ∧
    (∀ (s : TimerState) (m : TimerMode) (p : Nat),
        (timerStep s (.init m p)).1 = TimerState.Armed m p p) ∧
    (∀ (s : TimerState), (timerStep s .deinit).1 = TimerState.Stopped) ∧
    (∀ (en : Bool) (es : List IrqEvent), noReinstall es →
        (irqRun (irqStep en .removeHandler).1 es).2 = 0) := by
  refine ⟨?_, ?_, ?_, ?_, ?_⟩
  · intro s n
    have h1 : (timerStep s .deinit).1 = TimerState.Stopped := by cases s <;> rfl
    rw [h1, timerRun_stopped_ticks]
  · intro p n hp hn
    have h1 : (timerStep .Stopped (.init .ONE_SHOT p)).1 =
        TimerState.Armed .ONE_SHOT p p := rfl
    rw [h1, timerRun_oneShot n p p hp hn]
  · intro s m p; cases s <;> rfl
  · intro s; cases s <;> rfl
  · intro en es h
    have h1 : (irqStep en .removeHandler).1 = false := rfl
    rw [h1]
    exact irqRun_disabled es h

/-- C2 witness: the theorem instantiated at the concrete timers of
11_timer_interrupt.py — deinitializing the 500 ms periodic timer of example 1
silences it for the following 5000 ms; the one-shot timer of example 2
(period 2000 ms, observed for 3000 ms) fires exactly once and ends Stopped;
and after `button.irq(handler=None)` two further button edges invoke the
handler zero times. -/
theorem C2_witness :
    timerRun (timerStep (TimerState.Armed .PERIODIC 500 200) .deinit).1 (ticks 5000) =
      (TimerState.Stopped, 0) ∧
    timerRun (timerStep .Stopped (.init .ONE_SHOT 2000)).1 (ticks 3000) =
      (TimerState.Stopped, 1) ∧
    (irqRun (irqStep true .removeHandler).1 [.edge, .edge]).2 = 0 :=
  ⟨C2_deinit_and_oneShot.1 (TimerState.Armed .PERIODIC 500 200) 5000,
   C2_deinit_and_oneShot.2.1 2000 3000 (by decide) (by decide),
   C2_deinit_and_oneShot.2.2.2.2 true [.edge, .edge] (by decide)⟩

/-! ### Signal with polarity inversion (02_led_on_signal.py, spec section 4.2) -/

/-- Electrical HIGH level of a digital pin, encoded as `true`. -/
def HIGH : Bool := true

/-- Electrical LOW level of a digital pin, encoded as `false`. -/
def LOW : Bool := false

/-- Modelled from the spec: `machine.Signal` is not part of this repository;
per the spec it translates a requested logical level to the physical pin
level via `physical_level = requested_level XOR invert`. -/
def physical_level (requested invert : Bool) : Bool := xor requested invert

/-- A `Signal` over an output pin: the inversion flag given at construction
(`Signal(pin, invert=True)` in 02_led_on_signal.py line 28) and the physical
level currently driven on the wrapped pin. -/
structure SignalModel where
  invert : Bool
  pinValue : Bool
deriving DecidableEq

/-- Drive a requested logical level through the signal onto the wrapped pin. -/
def SignalModel.write (s : SignalModel) (requested : Bool) : SignalModel :=
  { s with pinValue := physical_level requested s.invert }

/-- `led.on()`: request the logical ON (HIGH) level. -/
def SignalModel.on (s : SignalModel) : SignalModel := s.write true

/-- `led.off()`: request the logical OFF (LOW) level. -/
def SignalModel.off (s : SignalModel) : SignalModel := s.write false

/-- C3: every `on()`/`off()` (and any `write`) drives the physical pin to
`requested_level XOR invert`; in particular `Signal.on()` followed
immediately by reading the underlying physical pin yields LOW when
`invert = true` — the active-low LED case constructed in
02_led_on_signal.py — and HIGH when `invert = false`. -/
theorem C3_signal_polarity (s : SignalModel) (r : Bool) :
    (s.write r).pinValue = xor r s.invert ∧
    (SignalModel.on s).pinValue = xor true s.invert ∧
    (SignalModel.off s).pinValue = xor false s.invert ∧
    (SignalModel.on { s with invert := true }).pinValue = LOW ∧
    (SignalModel.on { s with invert := false }).pinValue = HIGH := by
  cases s with
  | mk inv pv =>
      cases inv <;> cases r <;>
        simp [SignalModel.write, SignalModel.on, SignalModel.off,
          physical_level, HIGH, LOW]

/-! ### ADC voltage conversion (04_adc_analog_input.py) -/

/-- Reference voltage, `VREF = 3.3` in 04_adc_analog_input.py line 29,
embedded as the exact rational 33/10. -/
def VREF : ℚ := 33 / 10

/-- Raw-sample-to-voltage conversion of 04_adc_analog_input.py line 44,
`voltage = (raw_value / 65535) * VREF`, over exact rationals; `raw` is the
16-bit sample returned by `adc.read_u16()`. -/
def voltage (raw : Nat) : ℚ := ((raw : ℚ) / 65535) * VREF

/-- C4: the conversion is exact at both endpoints — `voltage 0 = 0` and
`voltage 65535 = VREF = 3.3` — and monotonically non-decreasing on the raw
sample range 0..65535. -/
theorem C4_voltage_conversion :
    voltage 0 = 0 ∧ voltage 65535 = VREF ∧
    ∀ r1 r2 : Nat, r1 ≤ 65535 → r2 ≤ 65535 → r1 ≤ r2 →
      voltage r1 ≤ voltage r2 := by
  refine ⟨by norm_num [voltage], by norm_num [voltage, VREF], ?_⟩
  intro r1 r2 _ _ h
  have hc : (r1 : ℚ) ≤ (r2 : ℚ) := by exact_mod_cast h
  unfold voltage VREF
  have key : (r1 : ℚ) / 65535 ≤ (r2 : ℚ) / 65535 := by
    apply div_le_div_of_nonneg_right hc
    norm_num
  exact mul_le_mul_of_nonneg_right key (by norm_num)

/-- C4 witness: the monotonicity conjunct at the sample values shown in the
example output of 04_adc_analog_input.py (12000 and 45000). -/
theorem C4_voltage_witness : voltage 12000 ≤ voltage 45000 :=
  C4_voltage_conversion.2.2 12000 45000 (by decide) (by decide) (by decide)

/-! ### File operations (07_file_operations.py)

The scripts use MicroPython's built-in file objects.  A single file's content
is modelled as the string of characters it holds; `open(f, 'w')` truncates
and the writes replace the content, `open(f, 'a')` appends, `open(f, 'r')`
reads the content back. -/

/-- Content of a file after it is opened in write mode `'w'` (which truncates
whatever `oldContent` it held) and `data` is written. -/
def fsWrite (_oldContent data : String) : String := data

/-- Content of a file after it is opened in append mode `'a'` and `data` is
written after the existing `content`. -/
def fsAppend (content data : String) : String := content ++ data

/-- Content returned by reading a file opened in read mode `'r'`. -/
def fsRead (content : String) : String := content

/-- Accumulator for `fileLines`: characters of the current line are collected
(reversed) in `acc`; a newline ends the current line; a final fragment with
no terminating newline is still a line, and a file ending in a newline has no
extra empty last line — the lines Python's `for line in f` iteration yields,
with the terminating newline of each line stripped. -/
def splitLinesAux : List Char → List Char → List (List Char)
  | [], [] => []
  | [], acc => [acc.reverse]
  | c :: cs, acc =>
      if c = '\n' then acc.reverse :: splitLinesAux cs []
      else splitLinesAux cs (c :: acc)

/-- The lines of a text file's content, in order. -/
def fileLines (s : String) : List String :=
  (splitLinesAux s.data []).map (fun cs => String.mk cs)

/-- C5: writing `"a\nb\nc\n"` to a log file in write mode, then appending
`"d\n"` in append mode, then reading the file back yields exactly the four
lines a, b, c, d in that order. -/
theorem C5_write_append_read :
    fileLines (fsRead (fsAppend (fsWrite "" "a\nb\nc\n") "d\n")) =
      ["a", "b", "c", "d"] := by
  decide

/-! ### The CSV sensor log (07_file_operations.py example 5) -/

/-- Header line written to sensor_log.csv
(07_file_operations.py line 70: `f.write('Timestamp,Temperature,Humidity\n')`). -/
def csvHeader : String := "Timestamp,Temperature,Humidity"

/-- Rendered temperature column of the five logged rows: Python prints
`25.0 + i * 0.5` for i = 0..4 as these strings. -/
def tempStrs : List String := ["25.0", "25.5", "26.0", "26.5", "27.0"]

/-- Rendered humidity column of the five logged rows: `60 + i * 2`. -/
def humStrs : List String := ["60", "62", "64", "66", "68"]

/-- One data row, `f'{timestamp},{temperature},{humidity}\n'`. -/
def csvRow (timestamp temperature humidity : String) : String :=
  timestamp ++ "," ++ temperature ++ "," ++ humidity ++ "\n"

/-- Content of sensor_log.csv after the logging loop: the header is written
in mode `'w'`, then one data row is appended per iteration; `ts i` is the
string the unmodelled `time.time()` timestamp of iteration `i` renders to. -/
def sensorLogContent (ts : Nat → String) : String :=
  (List.range 5).foldl
    (fun content i =>
      fsAppend content (csvRow (ts i) (tempStrs.getD i "") (humStrs.getD i "")))
    (fsWrite "" (csvHeader ++ "\n"))

/-- First line of a file's content: the characters up to the first newline. -/
def firstLine (s : String) : String :=
  String.mk (s.data.takeWhile (fun c => c ≠ '\n'))

/-- Folding appends over a list only ever extends the initial string. -/
theorem foldl_append_extends (g : Nat → String) :
    ∀ (l : List Nat) (init : String),
      ∃ t : String, l.foldl (fun c i => c ++ g i) init = init ++ t := by
  intro l
  induction l with
  | nil => intro init; exact ⟨"", by simp⟩
  | cons i tl ih =>
      intro init
      obtain ⟨t, ht⟩ := ih (init ++ g i)
      exact ⟨g i ++ t, by simp only [List.foldl_cons, ht, String.append_assoc]⟩

/-- Characters before the first newline of `pre ++ '\n' :: rest` are exactly
`pre` when `pre` itself holds no newline. -/
theorem takeWhile_prefix_line :
    ∀ (pre rest : List Char), (∀ c ∈ pre, c ≠ '\n') →
      (pre ++ '\n' :: rest).takeWhile (fun c => c ≠ '\n') = pre := by
  intro pre
  induction pre with
  | nil => intro rest _; simp [List.takeWhile]
  | cons c cs ih =>
      intro rest h
      have hc : c ≠ '\n' := h c (List.mem_cons_self c cs)
      have hcs := ih rest (fun x hx => h x (List.mem_cons_of_mem c hx))
      simp only [List.cons_append, List.takeWhile_cons]
      rw [if_pos (by simpa using hc), hcs]

/-- C8: whatever the timestamps render to, sensor_log.csv begins with exactly
the header line `Timestamp,Temperature,Humidity` as its first line. -/
theorem C8_csv_header_first (ts : Nat → String) :
    firstLine (sensorLogContent ts) = csvHeader := by
  obtain ⟨t, ht⟩ := foldl_append_extends
    (fun i => csvRow (ts i) (tempStrs.getD i "") (humStrs.getD i ""))
    (List.range 5) (fsWrite "" (csvHeader ++ "\n"))
  rw [sensorLogContent]
  simp only [fsAppend]
  rw [ht, firstLine]
  have hdata : ((fsWrite "" (csvHeader ++ "\n")) ++ t).data =
      csvHeader.data ++ '\n' :: t.data := by
    show ((csvHeader ++ "\n") ++ t).data = csvHeader.data ++ '\n' :: t.data
    simp [String.data_append, csvHeader]
  rw [hdata, takeWhile_prefix_line csvHeader.data t.data (by decide)]

/-! ### Cancellation-path audit of the example scripts (C6)

Each record is read directly off one script's source: whether its main loop
runs until user cancellation (`while True` inside `try`), whether it catches
KeyboardInterrupt, which hardware handles it acquires, and what its
cancellation handler does. -/

/-- Audit record of one example script. -/
structure ScriptAudit where
  name : String
  loopsUntilCancel : Bool
  catchesKeyboardInterrupt : Bool
  acquiresLedPin : Bool
  ledOffOnCancel : Bool
  acquiresPwm : Bool
  pwmDeinitOnCancel : Bool
deriving DecidableEq

/-- 01_led_blink.py: `while True` loop, `except KeyboardInterrupt` handler
calls `led.off()` (lines 31-38). -/
def script01 : ScriptAudit := ⟨"01_led_blink.py", true, true, true, true, false, false⟩

/-- 02_led_on_signal.py: straight-line script, no loop and no handler;
acquires the LED pin (wrapped in a Signal). -/
def script02 : ScriptAudit := ⟨"02_led_on_signal.py", false, false, true, false, false, false⟩

/-- 03_button_input.py: `while True` loop, `except KeyboardInterrupt` handler
calls `led.off()` (lines 41-52). -/
def script03 : ScriptAudit := ⟨"03_button_input.py", true, true, true, true, false, false⟩

/-- 04_adc_analog_input.py: `while True` loop, `except KeyboardInterrupt`
handler (lines 38-52) only prints; the script acquires neither an LED pin
nor a PWM, only the ADC. -/
def script04 : ScriptAudit := ⟨"04_adc_analog_input.py", true, true, false, false, false, false⟩

/-- 05_pwm_led_fade.py: `while True` loop, `except KeyboardInterrupt` handler
calls `pwm_led.deinit()` (lines 44-58); the LED pin exists only as the PWM
output, no plain output Pin is held. -/
def script05 : ScriptAudit := ⟨"05_pwm_led_fade.py", true, true, false, false, true, true⟩

/-- 06_i2c_communication.py: straight-line script, no cancellation loop. -/
def script06 : ScriptAudit := ⟨"06_i2c_communication.py", false, false, false, false, false, false⟩

/-- 07_file_operations.py: straight-line script (the `while True` at line 136
sits inside a docstring), no cancellation loop. -/
def script07 : ScriptAudit := ⟨"07_file_operations.py", false, false, false, false, false, false⟩

/-- 08_repl_examples.py: a docstring of REPL transcripts plus one print. -/
def script08 : ScriptAudit := ⟨"08_repl_examples.py", false, false, false, false, false, false⟩

/-- 09_spi_communication.py: straight-line script; the output pin it holds is
the chip-select line, not an LED. -/
def script09 : ScriptAudit := ⟨"09_spi_communication.py", false, false, false, false, false, false⟩

/-- 10_uart_serial.py: its loops are bounded by wall-clock deadlines (5 s and
10 s), not by user cancellation. -/
def script10 : ScriptAudit := ⟨"10_uart_serial.py", false, false, false, false, false, false⟩

/-- 11_timer_interrupt.py: a linear sequence of bounded demonstrations with
`time.sleep` waits, no cancellation loop; it holds the LED pin. -/
def script11 : ScriptAudit := ⟨"11_timer_interrupt.py", false, false, true, false, false, false⟩

/-- 12_cy8ckit_062s2_ai_sensors.py: its loop is bounded to 10 seconds; it
holds the LED pin. -/
def script12 : ScriptAudit := ⟨"12_cy8ckit_062s2_ai_sensors.py", false, false, true, false, false, false⟩

/-- All example scripts of the repository (board_config.py and
examples_index.py hold only data and documentation). -/
def exampleScripts : List ScriptAudit :=
  [script01, script02, script03, script04, script05, script06, script07,
   script08, script09, script10, script11, script12]

/-- C6: every example script whose main loop runs until user cancellation
catches the keyboard interrupt, and on that cancellation path it drives its
LED off whenever it holds a plain LED output pin and deinitializes any PWM
peripheral it acquired. -/
theorem C6_cancellation_cleanup :
    ∀ s ∈ exampleScripts, s.loopsUntilCancel = true →
      s.catchesKeyboardInterrupt = true ∧
      (s.acquiresLedPin = true → s.ledOffOnCancel = true) ∧
      (s.acquiresPwm = true → s.pwmDeinitOnCancel = true) := by
  decide

/-- C6 witness: the theorem at the two loop-until-cancellation scripts whose
cleanup acts on hardware — 01_led_blink.py turns the LED off and
05_pwm_led_fade.py deinitializes its PWM. -/
theorem C6_cancellation_witness :
    script01.catchesKeyboardInterrupt = true ∧ script01.ledOffOnCancel = true ∧
    script05.pwmDeinitOnCancel = true :=
  ⟨(C6_cancellation_cleanup script01 (by decide) (by decide)).1,
   (C6_cancellation_cleanup script01 (by decide) (by decide)).2.1 (by decide),
   (C6_cancellation_cleanup script05 (by decide) (by decide)).2.2 (by decide)⟩

/-! ### Bus-constructor failure handling (C7)

Each record is read off the try/except block guarding a peripheral bus
constructor: how many diagnostic lines its except block prints and whether
the block ends in a bare `raise` re-raising the caught exception. -/

/-- Audit record of one guarded bus constructor. -/
structure BusInitAudit where
  script : String
  bus : String
  diagLinesOnFailure : Nat
  reRaises : Bool
deriving DecidableEq

/-- 06_i2c_communication.py lines 40-45: one print, then `raise`. -/
def i2cInit06 : BusInitAudit := ⟨"06_i2c_communication.py", "I2C", 1, true⟩

/-- 09_spi_communication.py lines 60-73: one print, then `raise`. -/
def spiInit09 : BusInitAudit := ⟨"09_spi_communication.py", "SPI", 1, true⟩

/-- 10_uart_serial.py lines 51-63: one print, then `raise`. -/
def uartInit10 : BusInitAudit := ⟨"10_uart_serial.py", "UART", 1, true⟩

/-- 12_cy8ckit_062s2_ai_sensors.py lines 45-72: the except block prints two
diagnostic lines and does not re-raise — the script continues. -/
def sensorsI2cInit12 : BusInitAudit :=
  ⟨"12_cy8ckit_062s2_ai_sensors.py", "I2C", 2, false⟩

/-- Every guarded bus constructor in the repository. -/
def busInitAudits : List BusInitAudit :=
  [i2cInit06, spiInit09, uartInit10, sensorsI2cInit12]

/-- C7 (counterexample): it is not true that every script catching a bus
constructor exception prints the diagnostic exactly once and re-raises:
12_cy8ckit_062s2_ai_sensors.py prints two diagnostic lines and continues
without re-raising, so construction failure is not fatal there. -/
theorem C7_counterexample :
    ¬ (∀ b ∈ busInitAudits, b.diagLinesOnFailure = 1 ∧ b.reRaises = true) := by
  decide

/-- C7 (amended): in each dedicated bus example (06 I2C, 09 SPI, 10 UART) a
constructor exception is caught, printed exactly once, and re-raised upward,
so construction failure is fatal for that script and never retried; the
sensors example 12 instead catches its I2C constructor exception, prints two
diagnostic lines, and continues without re-raising. -/
theorem C7_bus_init_fatal :
    (∀ b ∈ busInitAudits, b.script ≠ sensorsI2cInit12.script →
        b.diagLinesOnFailure = 1 ∧ b.reRaises = true) ∧
    sensorsI2cInit12.diagLinesOnFailure = 2 ∧ sensorsI2cInit12.reRaises = false := by
  decide

/-- C7 witness: the amended theorem at the I2C example 06. -/
theorem C7_bus_init_witness :
    i2cInit06.diagLinesOnFailure = 1 ∧ i2cInit06.reRaises = true :=
  C7_bus_init_fatal.1 i2cInit06 (by decide) (by decide)

/-! ### PWM fade duty sequences (05_pwm_led_fade.py, C9) -/

/-- Python `range(start, stop, step)` for a positive step, as the fade-in
loop uses it: the ascending values `start, start+step, …` strictly below
`stop`; the element count is `⌈(stop-start)/step⌉` as CPython computes it. -/
def pyRangeUp (start stop step : Nat) : List Nat :=
  (List.range ((stop - start + step - 1) / step)).map (fun k => start + k * step)

/-- Python `range(start, stop, -stepMag)` for a negative step, as the
fade-out loop uses it (its stop is -1): the descending values
`start, start-stepMag, …` strictly above `stop`; the element count is
`(start-stop-1) / stepMag + 1` when `start > stop`, as CPython computes it. -/
def pyRangeDown (start stop : Int) (stepMag : Nat) : List Int :=
  if start ≤ stop ∨ stepMag = 0 then []
  else (List.range (((start - stop - 1) / stepMag).toNat + 1)).map
    (fun k => start - k * stepMag)

/-- Fade step size, `FADE_STEP = 256` in 05_pwm_led_fade.py line 32. -/
def FADE_STEP : Nat := 256

/-- Duty values set by the fade-in loop, `for duty in range(0, 65536, FADE_STEP)`
(05_pwm_led_fade.py line 47). -/
def fadeInDuties : List Nat := pyRangeUp 0 65536 FADE_STEP

/-- Duty values set by the fade-out loop, `for duty in range(65535, -1, -FADE_STEP)`
(05_pwm_led_fade.py line 52). -/
def fadeOutDuties : List Int := pyRangeDown 65535 (-1) FADE_STEP

/-- All duty values one full fade cycle passes to `pwm_led.duty_u16`, in
order: the fade-in values followed by the fade-out values. -/
def fadeCycleDuties : List Int :=
  fadeInDuties.map (fun n => (n : Int)) ++ fadeOutDuties

/-- C9 (counterexample): a full fade cycle does drive the LED fully on and
does pass through the fully-off duty — the fade-out loop begins at 65535 and
the fade-in loop begins at 0 — refuting the claim's conclusion that the
cycle "neither drives the LED fully on nor returns it fully off". -/
theorem C9_counterexample :
    fadeOutDuties.head? = some 65535 ∧
    (65535 : Int) ∈ fadeCycleDuties ∧ (0 : Int) ∈ fadeCycleDuties := by
  decide

/-- C9 (amended): the last duty set by the fade-in loop is 65280, and the
100% duty 65535 never occurs in the fade-in loop; the last duty set by the
fade-out loop is 255, and 0 never occurs in the fade-out loop — so a full
fade cycle never ends fully on after fading in nor fully off after fading
out, although the cycle does pass through duty 0 (the first fade-in value)
and duty 65535 (the first fade-out value). -/
theorem C9_fade_boundaries :
    fadeInDuties.getLast? = some 65280 ∧ (65535 : Nat) ∉ fadeInDuties ∧
    fadeOutDuties.getLast? = some 255 ∧ (0 : Int) ∉ fadeOutDuties ∧
    fadeInDuties.head? = some 0 ∧ fadeOutDuties.head? = some 65535 := by
  decide

/-! ### UART configuration banner parity letter (10_uart_serial.py, C10) -/

/-- The valid UART parity settings as the source documents them
(10_uart_serial.py line 39: `PARITY = None  # Parity: None, 0 (even), 1 (odd)`);
`none` is Python's None and `some n` the integer `n`. -/
def validParities : List (Option Nat) := [none, some 0, some 1]

/-- Index computed by the banner expression `PARITY if PARITY else 0`
(10_uart_serial.py line 47); under Python truthiness both None and 0 are
falsy and yield index 0. -/
def parityIndex : Option Nat → Nat
  | none => 0
  | some n => if n = 0 then 0 else n

/-- Letter the configuration banner prints,
`['N','E','O'][PARITY if PARITY else 0]`. -/
def parityLetter (p : Option Nat) : Char :=
  ['N', 'E', 'O'].getD (parityIndex p) '?'

/-- C10: over the valid parity settings None, 0 (even), 1 (odd) the banner
prints the letters N, N, E respectively — so parity None and parity 0 both
print N, parity 1 prints E, and the letter O is never printed for any valid
parity setting. -/
theorem C10_parity_banner :
    validParities.map parityLetter = ['N', 'N', 'E'] ∧
    'O' ∉ validParities.map parityLetter := by
  decide

end PSoC6
